import Mathlib

/-!
Shallow embedding of the memory-admission layer of
`be/src/vec/common/allocator.cpp` (Apache Doris backend): the functions
`sys_memory_check`, `memory_tracker_check` and their interaction with the
global memory arbitrator and the per-thread memory tracker.

External collaborators (arbitrator, tracker manager, fragment manager) are
modelled as oracles in an `Env` record.  Observations that the code may make
repeatedly during the hard-limit wait loop (`is_exceed_hard_mem_limit`,
`is_query_cancelled`) are functions of the number of completed 100 ms sleeps:
`exceed k` / `cancelled k` is the value the external call returns after the
thread has slept `k` times in this admission check.  The Bernoulli fault
trial's outcome is the oracle bit `faultTrial`.

The checks are `void` functions in C++ whose observable behaviour is: throw a
`doris::Exception(MEM_ALLOC_FAILED, msg)`, or return, having possibly called
`cancel_query`, `disable_wait_gc`, `refresh_interval_memory_growth += size`,
slept, and logged.  `SysEffects` records exactly those observables.  The
spec-level decision `Proceed | Cancelled | Fail` is derived from the
observables: a throw is `Fail`; a normal return is `Cancelled` when the call
either requested cancellation or returned from an `is_query_cancelled()`
branch, and `Proceed` otherwise.
-/

namespace DorisAlloc

/-- The only error code thrown by these checks: `doris::ErrorCode::MEM_ALLOC_FAILED`. -/
inductive ErrorCode where
  | MEM_ALLOC_FAILED
  deriving DecidableEq, Repr

/-- Diagnostic messages built by the checks.  `sysCheckFailed size withStack` is the
`err_msg` of `sys_memory_check` (the flag records whether the stack trace was appended,
line 96-99); `injection` is the `[MemAllocInjectFault]` message; `waiting` is the
"waiting for enough memory" log line; `trackerCheckFailed` is the `err_msg` of
`memory_tracker_check`. -/
inductive Msg where
  | injection
  | sysCheckFailed (size : Nat) (withStack : Bool)
  | waiting (size : Nat)
  | trackerCheckFailed (size : Nat)
  deriving DecidableEq, Repr

/-- How the C++ `void` check terminates: normal return, or a thrown `doris::Exception`. -/
inductive Outcome where
  | ret
  | thrown (code : ErrorCode) (msg : Msg)
  deriving DecidableEq, Repr

/-- Process-wide configuration read by the checks (`doris::config::...`).  The C++
`double mem_alloc_fault_probability` is modelled as a rational; the checks only
compare it with `0.0`. -/
structure Config where
  mem_alloc_fault_probability : Rat
  enable_stacktrace : Bool
  stacktrace_in_alloc_large_memory_bytes : Int
  thread_wait_gc_max_milliseconds : Int
  disable_memory_gc : Bool
  deriving Repr

/-- Oracles for the thread context and the external arbitrator / tracker / fragment
manager, for one admission-check call.  `exceed k` is the value
`GlobalMemoryArbitrator::is_exceed_hard_mem_limit(size)` returns after `k` completed
100 ms sleeps of this call; `cancelled k` likewise for
`thread_mem_tracker_mgr->is_query_cancelled()`.  `check_limit_ok` is whether
`thread_mem_tracker()->check_limit(size)` returns an OK status. -/
structure Env where
  skip_memory_check : Int
  faultTrial : Bool
  is_attach_query : Bool
  wait_gc : Bool
  exceed : Nat → Bool
  cancelled : Nat → Bool
  check_limit_ok : Bool

/-- Observable side effects of one admission-check call: termination mode, the ordered
`cancel_query` calls, the `LOG(INFO)` diagnostics, whether `disable_wait_gc()` was
called, the amount added to `refresh_interval_memory_growth`, total milliseconds
slept, the final value of the C++ local `wait_milliseconds`, and whether the call
returned from an `is_query_cancelled()`-true branch. -/
structure SysEffects where
  outcome : Outcome
  cancels : List Msg
  logs : List Msg
  disabledWaitGc : Bool
  growth : Nat
  sleptMs : Nat
  waitMs : Nat
  observedCancelled : Bool
  deriving DecidableEq, Repr

/-- The spec-level admission decision (`Proceed | Cancelled | Fail`). -/
inductive Decision where
  | Proceed
  | Cancelled
  | Fail
  deriving DecidableEq, Repr

/-- Decision abstraction of a check's observables: throwing is `Fail`; returning after
requesting cancellation, or because the query was observed cancelled, is `Cancelled`;
any other normal return lets the allocation proceed. -/
def SysEffects.decision (e : SysEffects) : Decision :=
  match e.outcome with
  | .thrown _ _ => .Fail
  | .ret => if e.cancels = [] ∧ e.observedCancelled = false then .Proceed else .Cancelled

/-- Effects of a check that returns at once having done nothing. -/
def noEffects : SysEffects :=
  { outcome := .ret, cancels := [], logs := [], disabledWaitGc := false,
    growth := 0, sleptMs := 0, waitMs := 0, observedCancelled := false }

/-- Whether `sys_memory_check` appends a stack trace to its error message
(line 96-97): `stacktrace_in_alloc_large_memory_bytes > 0 && size > stacktrace_in_alloc_large_memory_bytes`. -/
def stackInMsg (cfg : Config) (size : Nat) : Bool :=
  decide (0 < cfg.stacktrace_in_alloc_large_memory_bytes) &&
    decide (cfg.stacktrace_in_alloc_large_memory_bytes < (size : Int))

/-- The `err_msg` built by `sys_memory_check` at lines 86-99. -/
def sysErrMsg (cfg : Config) (size : Nat) : Msg :=
  .sysCheckFailed size (stackInMsg cfg size)

/-- Exit of the hard-limit wait loop, tagged with the value of the loop counter
(`wait_milliseconds / 100`) at exit.  `freed k`: the re-check found the hard limit no
longer exceeded after `k + 1` sleeps.  `cancelledMid k`: the query was observed
cancelled after `k + 1` sleeps.  `timeout k`: the guard `wait_milliseconds <
thread_wait_gc_max_milliseconds` failed with `wait_milliseconds = 100 * k`. -/
inductive LoopExit where
  | freed (k : Nat)
  | cancelledMid (k : Nat)
  | timeout (k : Nat)
  deriving DecidableEq, Repr

/-- Number of iterations for which the loop guard `100 * k <
thread_wait_gc_max_milliseconds` holds; `numIters_spec` proves the count exact, so
running the loop on this fuel is the same loop as the C++ `while`. -/
def numIters (maxMs : Int) : Nat := (maxMs.toNat + 99) / 100

/-- Body of the C++ `while (wait_milliseconds < thread_wait_gc_max_milliseconds)`
loop (lines 118-131), one structural step per permitted iteration: sleep 100 ms,
re-check the hard limit (break and record growth when satisfied), check cancellation
(return when cancelled), else `wait_milliseconds += 100` and continue. -/
def waitLoopAux (env : Env) : Nat → Nat → LoopExit
  | 0, k => .timeout k
  | r + 1, k =>
    if env.exceed (k + 1) = false then .freed k
    else if env.cancelled (k + 1) = true then .cancelledMid k
    else waitLoopAux env r (k + 1)

/-- The hard-limit wait loop, started with `wait_milliseconds = 0`. -/
def waitLoop (maxMs : Int) (env : Env) : LoopExit :=
  waitLoopAux env (numIters maxMs) 0

/-- Embedding of `Allocator::sys_memory_check(size)` (allocator.cpp lines 47-161). -/
def sys_memory_check (cfg : Config) (enable_thread_catch_bad_alloc : Bool)
    (env : Env) (size : Nat) : SysEffects :=
  if env.skip_memory_check ≠ 0 then noEffects
  else
    let injected := decide (0 < cfg.mem_alloc_fault_probability) && env.faultTrial
    let injLogs : List Msg := if injected && !cfg.enable_stacktrace then [.injection] else []
    if injected && enable_thread_catch_bad_alloc then
      { noEffects with outcome := .thrown .MEM_ALLOC_FAILED .injection, logs := injLogs }
    else
      let cancels0 : List Msg := if injected then [.injection] else []
      if env.exceed 0 = true then
        let errMsg := sysErrMsg cfg size
        if env.cancelled 0 = true then
          if enable_thread_catch_bad_alloc then
            { noEffects with
              outcome := .thrown .MEM_ALLOC_FAILED errMsg, cancels := cancels0,
              logs := injLogs, observedCancelled := true }
          else
            { noEffects with cancels := cancels0, logs := injLogs, observedCancelled := true }
        else if env.is_attach_query && env.wait_gc then
          let logs1 := injLogs ++ [.waiting size]
          if cfg.disable_memory_gc then
            if cfg.thread_wait_gc_max_milliseconds ≤ 0 then
              if enable_thread_catch_bad_alloc then
                { noEffects with
                  outcome := .thrown .MEM_ALLOC_FAILED errMsg, cancels := cancels0,
                  logs := logs1 ++ [errMsg], disabledWaitGc := true }
              else
                { noEffects with
                  cancels := cancels0 ++ [errMsg], logs := logs1 ++ [errMsg],
                  disabledWaitGc := true }
            else
              { noEffects with cancels := cancels0, logs := logs1 }
          else
            match waitLoop cfg.thread_wait_gc_max_milliseconds env with
            | .freed k =>
              { noEffects with
                cancels := cancels0, logs := logs1, growth := size,
                sleptMs := 100 * (k + 1), waitMs := 100 * k }
            | .cancelledMid k =>
              if enable_thread_catch_bad_alloc then
                { noEffects with
                  outcome := .thrown .MEM_ALLOC_FAILED errMsg, cancels := cancels0,
                  logs := logs1, sleptMs := 100 * (k + 1), waitMs := 100 * k,
                  observedCancelled := true }
              else
                { noEffects with
                  cancels := cancels0, logs := logs1, sleptMs := 100 * (k + 1),
                  waitMs := 100 * k, observedCancelled := true }
            | .timeout k =>
              if enable_thread_catch_bad_alloc then
                { noEffects with
                  outcome := .thrown .MEM_ALLOC_FAILED errMsg, cancels := cancels0,
                  logs := logs1 ++ [errMsg], disabledWaitGc := true,
                  sleptMs := 100 * k, waitMs := 100 * k }
              else
                { noEffects with
                  cancels := cancels0 ++ [errMsg], logs := logs1 ++ [errMsg],
                  disabledWaitGc := true, sleptMs := 100 * k, waitMs := 100 * k }
        else if enable_thread_catch_bad_alloc then
          { noEffects with
            outcome := .thrown .MEM_ALLOC_FAILED errMsg, cancels := cancels0,
            logs := injLogs ++ [errMsg] }
        else
          { noEffects with cancels := cancels0, logs := injLogs ++ [errMsg] }
      else
        { noEffects with cancels := cancels0, logs := injLogs }

/-- The `err_msg` built by `memory_tracker_check` at line 176. -/
def trackerErrMsg (size : Nat) : Msg := .trackerCheckFailed size

/-- Embedding of `Allocator::memory_tracker_check(size)` (allocator.cpp lines
163-198). -/
def memory_tracker_check (enable_thread_catch_bad_alloc : Bool)
    (env : Env) (size : Nat) : SysEffects :=
  if env.skip_memory_check ≠ 0 then noEffects
  else if env.check_limit_ok then noEffects
  else
    let errMsg := trackerErrMsg size
    if env.is_attach_query then
      if !enable_thread_catch_bad_alloc then
        { noEffects with
          cancels := [errMsg], logs := [errMsg, errMsg], disabledWaitGc := true }
      else
        { noEffects with
          outcome := .thrown .MEM_ALLOC_FAILED errMsg, logs := [errMsg, errMsg],
          disabledWaitGc := true }
    else if enable_thread_catch_bad_alloc then
      { noEffects with
        outcome := .thrown .MEM_ALLOC_FAILED errMsg, logs := [errMsg, errMsg] }
    else
      { noEffects with logs := [errMsg, errMsg] }

/-- Modelled from the spec: the caller of the admission check (`alloc_impl` in
`allocator.h`, which is not among the provided sources) performs the physical
allocation only when the admission decision is `Proceed`; on `Cancelled` it returns
without allocating and on `Fail` the raised signal propagates. -/
def allocProceeds : Decision → Bool
  | .Proceed => true
  | .Cancelled => false
  | .Fail => false

/-- Fault-free configuration used by concrete checks: probability 0, stack-trace
threshold 0 (off), wait ceiling 1000 ms, GC waiting enabled. -/
def cfgBase : Config :=
  { mem_alloc_fault_probability := 0, enable_stacktrace := true,
    stacktrace_in_alloc_large_memory_bytes := 0,
    thread_wait_gc_max_milliseconds := 1000, disable_memory_gc := false }

/-- `cfgBase` with fault injection certain to fire. -/
def cfgFault : Config := { cfgBase with mem_alloc_fault_probability := 1 }

/-- `cfgBase` with the GC-disable flag set. -/
def cfgGcOff : Config := { cfgBase with disable_memory_gc := true }

/-- `cfgBase` with a 100 ms wait ceiling (a single loop iteration). -/
def cfgWait100 : Config := { cfgBase with thread_wait_gc_max_milliseconds := 100 }

/-- A thread not attached to a wait-eligible query, under constant hard-limit
pressure, query not cancelled. -/
def envDetached : Env :=
  { skip_memory_check := 0, faultTrial := false, is_attach_query := false,
    wait_gc := false, exceed := fun _ => true, cancelled := fun _ => false,
    check_limit_ok := true }

/-- An attached, wait-eligible thread whose query is already cancelled, under
constant hard-limit pressure. -/
def envCancelled : Env :=
  { skip_memory_check := 0, faultTrial := false, is_attach_query := true,
    wait_gc := true, exceed := fun _ => true, cancelled := fun _ => true,
    check_limit_ok := true }

/-- A thread of an already-cancelled query with the hard limit not exceeded. -/
def envCancelledNoPressure : Env :=
  { skip_memory_check := 0, faultTrial := false, is_attach_query := true,
    wait_gc := true, exceed := fun _ => false, cancelled := fun _ => true,
    check_limit_ok := true }

/-- An attached, wait-eligible thread: the hard limit is exceeded at the initial
check but no longer after the first sleep. -/
def envFreeSoon : Env :=
  { skip_memory_check := 0, faultTrial := false, is_attach_query := true,
    wait_gc := true, exceed := fun n => decide (n = 0), cancelled := fun _ => false,
    check_limit_ok := true }

/-- An attached, wait-eligible thread under hard-limit pressure that never abates,
query never cancelled. -/
def envStuck : Env :=
  { skip_memory_check := 0, faultTrial := false, is_attach_query := true,
    wait_gc := true, exceed := fun _ => true, cancelled := fun _ => false,
    check_limit_ok := true }

/-- An attached, wait-eligible thread whose query becomes cancelled after the first
wait-loop sleep, with pressure that never abates. -/
def envCancelMid : Env :=
  { skip_memory_check := 0, faultTrial := false, is_attach_query := true,
    wait_gc := true, exceed := fun _ => true, cancelled := fun n => decide (1 ≤ n),
    check_limit_ok := true }

/-- An attached thread whose per-query soft-limit check fails; no hard-limit
pressure. -/
def envSoftFail : Env :=
  { skip_memory_check := 0, faultTrial := false, is_attach_query := true,
    wait_gc := true, exceed := fun _ => false, cancelled := fun _ => false,
    check_limit_ok := false }

/-- An attached thread on which the Bernoulli fault trial fires; no hard-limit
pressure, query not cancelled. -/
def envFaulty : Env :=
  { skip_memory_check := 0, faultTrial := true, is_attach_query := true,
    wait_gc := true, exceed := fun _ => false, cancelled := fun _ => false,
    check_limit_ok := true }

/-- The iteration count `numIters` is exact: the C++ loop guard
`wait_milliseconds < thread_wait_gc_max_milliseconds` (with `wait_milliseconds =
100 * k`) holds precisely for the first `numIters maxMs` values of `k`. -/
theorem numIters_spec (maxMs : Int) (k : Nat) :
    100 * (k : Int) < maxMs ↔ k < numIters maxMs := by
  unfold numIters
  omega

/-- A `timeout` exit carries counter `k + r`: the loop runs out its full budget. -/
theorem waitLoopAux_timeout_eq (env : Env) :
    ∀ r k j, waitLoopAux env r k = .timeout j → j = k + r := by
  intro r
  induction r with
  | zero =>
    intro k j h
    simp only [waitLoopAux, LoopExit.timeout.injEq] at h
    omega
  | succ r ih =>
    intro k j h
    unfold waitLoopAux at h
    split at h
    · exact absurd h (by simp)
    · split at h
      · exact absurd h (by simp)
      · have := ih (k + 1) j h
        omega

/-- A `freed` exit happens within the loop budget, at the first re-check that found
the hard limit no longer exceeded. -/
theorem waitLoopAux_freed_facts (env : Env) :
    ∀ r k j, waitLoopAux env r k = .freed j →
      k ≤ j ∧ j < k + r ∧ env.exceed (j + 1) = false := by
  intro r
  induction r with
  | zero =>
    intro k j h
    exact absurd h (by simp [waitLoopAux])
  | succ r ih =>
    intro k j h
    unfold waitLoopAux at h
    split at h
    · rename_i he
      simp only [LoopExit.freed.injEq] at h
      subst h
      exact ⟨le_refl _, by omega, he⟩
    · split at h
      · exact absurd h (by simp)
      · have := ih (k + 1) j h
        exact ⟨by omega, by omega, this.2.2⟩

/-- A `cancelledMid` exit happens within the loop budget, at an iteration that
observed the query cancelled. -/
theorem waitLoopAux_cancelledMid_facts (env : Env) :
    ∀ r k j, waitLoopAux env r k = .cancelledMid j →
      k ≤ j ∧ j < k + r ∧ env.cancelled (j + 1) = true := by
  intro r
  induction r with
  | zero =>
    intro k j h
    exact absurd h (by simp [waitLoopAux])
  | succ r ih =>
    intro k j h
    unfold waitLoopAux at h
    split at h
    · exact absurd h (by simp)
    · split at h
      · rename_i hc
        simp only [LoopExit.cancelledMid.injEq] at h
        subst h
        exact ⟨le_refl _, by omega, hc⟩
      · have := ih (k + 1) j h
        exact ⟨by omega, by omega, this.2.2⟩

/-- Eventual success of the wait loop: if the query is never observed cancelled and
some re-check within the budget finds the hard limit no longer exceeded, the loop
exits through the `freed` branch. -/
theorem waitLoopAux_freed_of_exceed_false (env : Env)
    (hc : ∀ i, env.cancelled i = false) :
    ∀ r k, (∃ j, k + 1 ≤ j ∧ j ≤ k + r ∧ env.exceed j = false) →
      ∃ j, waitLoopAux env r k = .freed j := by
  intro r
  induction r with
  | zero =>
    intro k hj
    obtain ⟨j, h1, h2, _⟩ := hj
    omega
  | succ r ih =>
    intro k hj
    obtain ⟨j, h1, h2, h3⟩ := hj
    unfold waitLoopAux
    by_cases he : env.exceed (k + 1) = false
    · exact ⟨k, by simp [he]⟩
    · have hj1 : k + 1 ≠ j := by
        intro hkj
        exact he (hkj ▸ h3)
      rw [if_neg (by simpa using he), hc (k + 1)]
      simpa using ih (k + 1) ⟨j, by omega, by omega, h3⟩

/-- With the synchronous-unwind flag off, `sys_memory_check` never throws: every
escalation in asynchronous mode ends in a normal return. -/
theorem sys_ret_of_not_catch (cfg : Config) (env : Env) (size : Nat) :
    (sys_memory_check cfg false env size).outcome = .ret := by
  unfold sys_memory_check
  repeat' split
  all_goals simp_all [noEffects]

/-- A context whose wait-eligibility bit is off never sleeps in `sys_memory_check`. -/
theorem sys_no_sleep_of_not_wait_gc (cfg : Config) (c : Bool) (env : Env) (size : Nat)
    (hw : env.wait_gc = false) :
    (sys_memory_check cfg c env size).sleptMs = 0 := by
  unfold sys_memory_check
  repeat' split
  all_goals simp_all [noEffects, apply_ite SysEffects.sleptMs]

/-- A normal return with a pending `cancel_query` request is the `Cancelled`
decision. -/
theorem decision_cancelled_of_cancels_ne (e : SysEffects)
    (hret : e.outcome = .ret) (hc : e.cancels ≠ []) :
    e.decision = .Cancelled := by
  unfold SysEffects.decision
  rw [hret]
  simp [hc]

/-- Every exception thrown by `sys_memory_check` carries the single error kind
`MEM_ALLOC_FAILED`: fault-injected and genuine failures are of the same kind. -/
theorem sys_thrown_code (cfg : Config) (c : Bool) (env : Env) (size : Nat)
    (code : ErrorCode) (m : Msg)
    (h : (sys_memory_check cfg c env size).outcome = .thrown code m) :
    code = .MEM_ALLOC_FAILED := by
  unfold sys_memory_check at h
  repeat' split at h
  all_goals simp_all [noEffects, apply_ite SysEffects.outcome]

/-- C1 (amended): when the Arbitrator reports the process hard limit exceeded and
the current context is not both query-attached and wait-eligible, the check
escalates without waiting: in synchronous-unwind mode it resolves to `Fail` and the
allocation never proceeds; in asynchronous mode it resolves to `Cancelled` exactly
when the query is already cancelled, and otherwise only logs and returns `Proceed`
(the degraded log-only mode, in which the allocation proceeds). -/
theorem C1_not_wait_eligible_escalation (cfg : Config) (c : Bool) (env : Env) (size : Nat)
    (hskip : env.skip_memory_check = 0)
    (hinj : ¬(0 < cfg.mem_alloc_fault_probability ∧ env.faultTrial = true))
    (hex : env.exceed 0 = true)
    (hne : (env.is_attach_query && env.wait_gc) = false) :
    (sys_memory_check cfg c env size).sleptMs = 0 ∧
    (c = true → (sys_memory_check cfg c env size).decision = .Fail ∧
      allocProceeds (sys_memory_check cfg c env size).decision = false) ∧
    (c = false → (sys_memory_check cfg c env size).decision =
      if env.cancelled 0 = true then .Cancelled else .Proceed) := by
  cases hcan : env.cancelled 0 <;> cases c <;>
    simp [sys_memory_check, SysEffects.decision, allocProceeds, noEffects,
      hskip, hinj, hex, hne, hcan]

/-- Witness for C1: synchronous mode, detached context, hard limit exceeded. -/
theorem C1_witness :
    (sys_memory_check cfgBase true envDetached 10).sleptMs = 0 ∧
    (true = true → (sys_memory_check cfgBase true envDetached 10).decision = .Fail ∧
      allocProceeds (sys_memory_check cfgBase true envDetached 10).decision = false) ∧
    (true = false → (sys_memory_check cfgBase true envDetached 10).decision =
      if envDetached.cancelled 0 = true then .Cancelled else .Proceed) :=
  C1_not_wait_eligible_escalation cfgBase true envDetached 10 rfl (by norm_num [cfgBase])
    rfl rfl

/-- Counterexample for C1 as stated: asynchronous mode, detached context, hard limit
exceeded, query not cancelled — the check resolves to `Proceed` (not `Fail`, not
`Cancelled`) and the allocation proceeds. -/
theorem C1_counterexample :
    (sys_memory_check cfgBase false envDetached 10).decision = .Proceed ∧
    (sys_memory_check cfgBase false envDetached 10).decision ≠ .Fail ∧
    (sys_memory_check cfgBase false envDetached 10).decision ≠ .Cancelled ∧
    allocProceeds (sys_memory_check cfgBase false envDetached 10).decision = true := by
  refine ⟨?_, ?_, ?_, ?_⟩ <;> decide

/-- C3 (amended): when the query is already cancelled and the request exceeds the
process hard limit, the check short-circuits without entering the wait loop and
without logging: in asynchronous mode it resolves to `Cancelled`; in
synchronous-unwind mode it raises `Fail` instead. -/
theorem C3_already_cancelled_short_circuit (cfg : Config) (c : Bool) (env : Env) (size : Nat)
    (hskip : env.skip_memory_check = 0)
    (hinj : ¬(0 < cfg.mem_alloc_fault_probability ∧ env.faultTrial = true))
    (hex : env.exceed 0 = true)
    (hcan : env.cancelled 0 = true) :
    (sys_memory_check cfg c env size).sleptMs = 0 ∧
    (sys_memory_check cfg c env size).logs = [] ∧
    (sys_memory_check cfg c env size).cancels = [] ∧
    (sys_memory_check cfg c env size).growth = 0 ∧
    (c = false → (sys_memory_check cfg c env size).decision = .Cancelled) ∧
    (c = true → (sys_memory_check cfg c env size).decision = .Fail) := by
  cases c <;>
    simp [sys_memory_check, SysEffects.decision, noEffects, hskip, hinj, hex, hcan]

/-- Witness for C3: asynchronous mode, already-cancelled query under hard-limit
pressure. -/
theorem C3_witness :
    (sys_memory_check cfgBase false envCancelled 10).sleptMs = 0 ∧
    (sys_memory_check cfgBase false envCancelled 10).logs = [] ∧
    (sys_memory_check cfgBase false envCancelled 10).cancels = [] ∧
    (sys_memory_check cfgBase false envCancelled 10).growth = 0 ∧
    (false = false → (sys_memory_check cfgBase false envCancelled 10).decision = .Cancelled) ∧
    (false = true → (sys_memory_check cfgBase false envCancelled 10).decision = .Fail) :=
  C3_already_cancelled_short_circuit cfgBase false envCancelled 10 rfl
    (by norm_num [cfgBase]) rfl rfl

/-- Counterexample for C3 as stated: with the synchronous-unwind flag set, the check
on an already-cancelled query under hard-limit pressure raises `Fail`, not
`Cancelled`. -/
theorem C3_counterexample :
    (sys_memory_check cfgBase true envCancelled 10).decision = .Fail ∧
    (sys_memory_check cfgBase true envCancelled 10).decision ≠ .Cancelled := by
  refine ⟨?_, ?_⟩ <;> decide

/-- C9: with the GC-disable flag set and a positive wait ceiling, a hard-limit
violation by an attached, wait-eligible, not-yet-cancelled query performs no sleep,
does not disable further waiting, does not cancel or raise, and returns normally,
letting the allocation proceed despite the exceeded hard limit. -/
theorem C9_gc_disabled_skips_wait (cfg : Config) (c : Bool) (env : Env) (size : Nat)
    (hskip : env.skip_memory_check = 0)
    (hinj : ¬(0 < cfg.mem_alloc_fault_probability ∧ env.faultTrial = true))
    (hex : env.exceed 0 = true) (hcan : env.cancelled 0 = false)
    (hattach : env.is_attach_query = true) (hwait : env.wait_gc = true)
    (hgc : cfg.disable_memory_gc = true)
    (hmax : 0 < cfg.thread_wait_gc_max_milliseconds) :
    (sys_memory_check cfg c env size).sleptMs = 0 ∧
    (sys_memory_check cfg c env size).disabledWaitGc = false ∧
    (sys_memory_check cfg c env size).cancels = [] ∧
    (sys_memory_check cfg c env size).outcome = .ret ∧
    (sys_memory_check cfg c env size).decision = .Proceed := by
  have hmax' : ¬cfg.thread_wait_gc_max_milliseconds ≤ 0 := not_le.mpr hmax
  simp [sys_memory_check, SysEffects.decision, noEffects,
    hskip, hinj, hex, hcan, hattach, hwait, hgc, hmax']

/-- Witness for C9: GC disabled, 1000 ms ceiling, attached wait-eligible thread under
constant pressure. -/
theorem C9_witness :
    (sys_memory_check cfgGcOff false envStuck 10).sleptMs = 0 ∧
    (sys_memory_check cfgGcOff false envStuck 10).disabledWaitGc = false ∧
    (sys_memory_check cfgGcOff false envStuck 10).cancels = [] ∧
    (sys_memory_check cfgGcOff false envStuck 10).outcome = .ret ∧
    (sys_memory_check cfgGcOff false envStuck 10).decision = .Proceed :=
  C9_gc_disabled_skips_wait cfgGcOff false envStuck 10 rfl
    (by norm_num [cfgGcOff, cfgBase]) rfl rfl rfl rfl rfl (by norm_num [cfgGcOff, cfgBase])

/-- C4: a wait-eligible hard-limit violation whose polling re-check finds the hard
limit no longer exceeded records the admitted size into the Arbitrator's
interval-growth counter and returns `Proceed`, having slept `100 * (k + 1)` ms. -/
theorem C4_wait_freed_records_growth (cfg : Config) (c : Bool) (env : Env) (size k : Nat)
    (hskip : env.skip_memory_check = 0)
    (hinj : ¬(0 < cfg.mem_alloc_fault_probability ∧ env.faultTrial = true))
    (hex : env.exceed 0 = true) (hcan : env.cancelled 0 = false)
    (hattach : env.is_attach_query = true) (hwait : env.wait_gc = true)
    (hgc : cfg.disable_memory_gc = false)
    (hloop : waitLoop cfg.thread_wait_gc_max_milliseconds env = .freed k) :
    (sys_memory_check cfg c env size).growth = size ∧
    (sys_memory_check cfg c env size).outcome = .ret ∧
    (sys_memory_check cfg c env size).decision = .Proceed ∧
    (sys_memory_check cfg c env size).disabledWaitGc = false ∧
    (sys_memory_check cfg c env size).sleptMs = 100 * (k + 1) := by
  simp [sys_memory_check, SysEffects.decision, noEffects,
    hskip, hinj, hex, hcan, hattach, hwait, hgc, hloop]

/-- Witness for C4: pressure relieved at the first re-check; the freed branch fires
after one 100 ms sleep. -/
theorem C4_witness :
    (sys_memory_check cfgBase false envFreeSoon 7).growth = 7 ∧
    (sys_memory_check cfgBase false envFreeSoon 7).outcome = .ret ∧
    (sys_memory_check cfgBase false envFreeSoon 7).decision = .Proceed ∧
    (sys_memory_check cfgBase false envFreeSoon 7).disabledWaitGc = false ∧
    (sys_memory_check cfgBase false envFreeSoon 7).sleptMs = 100 * (0 + 1) :=
  C4_wait_freed_records_growth cfgBase false envFreeSoon 7 0 rfl
    (by norm_num [cfgBase]) rfl rfl rfl rfl rfl (by decide)

/-- C5: when the wait reaches the configured ceiling with the limit still exceeded
and the query not cancelled, the check disables further waiting for the context, and
escalates with the descriptive message: synchronous-unwind mode raises `Fail`
carrying it (with a stack trace exactly above the configured size threshold), and
asynchronous mode cancels the query with the same message and resolves `Cancelled`;
a context with waiting disabled never sleeps again. -/
theorem C5_wait_ceiling_escalation (cfg : Config) (c : Bool) (env : Env) (size k : Nat)
    (hskip : env.skip_memory_check = 0)
    (hinj : ¬(0 < cfg.mem_alloc_fault_probability ∧ env.faultTrial = true))
    (hex : env.exceed 0 = true) (hcan : env.cancelled 0 = false)
    (hattach : env.is_attach_query = true) (hwait : env.wait_gc = true)
    (hgc : cfg.disable_memory_gc = false)
    (hloop : waitLoop cfg.thread_wait_gc_max_milliseconds env = .timeout k) :
    (sys_memory_check cfg c env size).disabledWaitGc = true ∧
    (c = true → (sys_memory_check cfg c env size).outcome =
        .thrown .MEM_ALLOC_FAILED (sysErrMsg cfg size) ∧
      (sys_memory_check cfg c env size).decision = .Fail) ∧
    (c = false → (sys_memory_check cfg c env size).cancels = [sysErrMsg cfg size] ∧
      (sys_memory_check cfg c env size).outcome = .ret ∧
      (sys_memory_check cfg c env size).decision = .Cancelled) ∧
    (stackInMsg cfg size = true ↔
      0 < cfg.stacktrace_in_alloc_large_memory_bytes ∧
        cfg.stacktrace_in_alloc_large_memory_bytes < (size : Int)) ∧
    (∀ env' : Env, env'.wait_gc = false → (sys_memory_check cfg c env' size).sleptMs = 0) := by
  refine ⟨?_, ?_, ?_, ?_, fun env' hw => sys_no_sleep_of_not_wait_gc cfg c env' size hw⟩
  · cases c <;>
      simp [sys_memory_check, noEffects, hskip, hinj, hex, hcan, hattach, hwait, hgc, hloop]
  · intro hc
    subst hc
    simp [sys_memory_check, SysEffects.decision, noEffects,
      hskip, hinj, hex, hcan, hattach, hwait, hgc, hloop]
  · intro hc
    subst hc
    simp [sys_memory_check, SysEffects.decision, noEffects,
      hskip, hinj, hex, hcan, hattach, hwait, hgc, hloop]
  · simp [stackInMsg]

/-- Witness for C5: 100 ms ceiling, pressure never abates; the ceiling is reached
after one iteration and asynchronous escalation fires. -/
theorem C5_witness :
    (sys_memory_check cfgWait100 false envStuck 10).disabledWaitGc = true ∧
    (false = true → (sys_memory_check cfgWait100 false envStuck 10).outcome =
        .thrown .MEM_ALLOC_FAILED (sysErrMsg cfgWait100 10) ∧
      (sys_memory_check cfgWait100 false envStuck 10).decision = .Fail) ∧
    (false = false →
      (sys_memory_check cfgWait100 false envStuck 10).cancels = [sysErrMsg cfgWait100 10] ∧
      (sys_memory_check cfgWait100 false envStuck 10).outcome = .ret ∧
      (sys_memory_check cfgWait100 false envStuck 10).decision = .Cancelled) ∧
    (stackInMsg cfgWait100 10 = true ↔
      0 < cfgWait100.stacktrace_in_alloc_large_memory_bytes ∧
        cfgWait100.stacktrace_in_alloc_large_memory_bytes < (10 : Int)) ∧
    (∀ env' : Env, env'.wait_gc = false →
      (sys_memory_check cfgWait100 false env' 10).sleptMs = 0) :=
  C5_wait_ceiling_escalation cfgWait100 false envStuck 10 1 rfl
    (by norm_num [cfgWait100, cfgBase]) rfl rfl rfl rfl rfl (by decide)

/-- C6: the hard-limit wait loop always terminates (the embedding is a total
function); every sleep is a fixed 100 ms increment, so the elapsed wait of a
wait-eligible hard-limit violation is a multiple of 100 ms and at most the ceiling
plus one increment; and if the hard limit becomes satisfiable within the ceiling
while the query is never cancelled, the previously blocked allocation succeeds with
the admitted size recorded. -/
theorem C6_wait_loop_bounded_and_eventually_succeeds (cfg : Config) (c : Bool)
    (env : Env) (size : Nat)
    (hskip : env.skip_memory_check = 0)
    (hinj : ¬(0 < cfg.mem_alloc_fault_probability ∧ env.faultTrial = true))
    (hex : env.exceed 0 = true) (hcan : env.cancelled 0 = false)
    (hattach : env.is_attach_query = true) (hwait : env.wait_gc = true)
    (hgc : cfg.disable_memory_gc = false)
    (hmax : 0 ≤ cfg.thread_wait_gc_max_milliseconds) :
    (∃ s, (sys_memory_check cfg c env size).sleptMs = 100 * s) ∧
    ((sys_memory_check cfg c env size).sleptMs : Int) ≤
      cfg.thread_wait_gc_max_milliseconds + 100 ∧
    ((∀ i, env.cancelled i = false) →
      (∃ j : Nat, 1 ≤ j ∧
        100 * ((j : Int) - 1) < cfg.thread_wait_gc_max_milliseconds ∧
        env.exceed j = false) →
      (sys_memory_check cfg c env size).decision = .Proceed ∧
      (sys_memory_check cfg c env size).growth = size) := by
  rcases hloop : waitLoop cfg.thread_wait_gc_max_milliseconds env with k | k | k
  · have hkfacts := waitLoopAux_freed_facts env
      (numIters cfg.thread_wait_gc_max_milliseconds) 0 k hloop
    have hkmax : 100 * (k : Int) < cfg.thread_wait_gc_max_milliseconds := by
      rw [numIters_spec]
      omega
    have heval :
        (sys_memory_check cfg c env size).sleptMs = 100 * (k + 1) ∧
        (sys_memory_check cfg c env size).decision = .Proceed ∧
        (sys_memory_check cfg c env size).growth = size := by
      simp [sys_memory_check, SysEffects.decision, noEffects,
        hskip, hinj, hex, hcan, hattach, hwait, hgc, hloop]
    refine ⟨⟨k + 1, heval.1⟩, ?_, fun _ _ => ⟨heval.2.1, heval.2.2⟩⟩
    rw [heval.1]
    omega
  · have hkfacts := waitLoopAux_cancelledMid_facts env
      (numIters cfg.thread_wait_gc_max_milliseconds) 0 k hloop
    have hkmax : 100 * (k : Int) < cfg.thread_wait_gc_max_milliseconds := by
      rw [numIters_spec]
      omega
    have heval : (sys_memory_check cfg c env size).sleptMs = 100 * (k + 1) := by
      cases c <;>
        simp [sys_memory_check, noEffects,
          hskip, hinj, hex, hcan, hattach, hwait, hgc, hloop]
    refine ⟨⟨k + 1, heval⟩, ?_, fun hcall _ => ?_⟩
    · rw [heval]
      omega
    · exact absurd hkfacts.2.2 (by simp [hcall])
  · have hk := waitLoopAux_timeout_eq env
      (numIters cfg.thread_wait_gc_max_milliseconds) 0 k hloop
    have hkmax : 100 * (k : Int) ≤ cfg.thread_wait_gc_max_milliseconds + 100 := by
      subst hk
      unfold numIters
      omega
    have heval : (sys_memory_check cfg c env size).sleptMs = 100 * k := by
      cases c <;>
        simp [sys_memory_check, noEffects,
          hskip, hinj, hex, hcan, hattach, hwait, hgc, hloop]
    refine ⟨⟨k, heval⟩, ?_, fun hcall hfree => ?_⟩
    · rw [heval]
      omega
    · obtain ⟨j0, hj1, hj2, hj3⟩ := hfree
      have hj2' : j0 - 1 < numIters cfg.thread_wait_gc_max_milliseconds := by
        rw [← numIters_spec]
        omega
      obtain ⟨k', hloop'⟩ :=
        waitLoopAux_freed_of_exceed_false env hcall
          (numIters cfg.thread_wait_gc_max_milliseconds) 0 ⟨j0, by omega, by omega, hj3⟩
      rw [show waitLoop cfg.thread_wait_gc_max_milliseconds env =
        waitLoopAux env (numIters cfg.thread_wait_gc_max_milliseconds) 0 from rfl] at hloop
      rw [hloop'] at hloop
      exact absurd hloop (by simp)

/-- Witness for C6: pressure relieved at the first re-check under a 1000 ms ceiling;
the blocked allocation proceeds after a single 100 ms sleep. -/
theorem C6_witness :
    (∃ s, (sys_memory_check cfgBase false envFreeSoon 7).sleptMs = 100 * s) ∧
    ((sys_memory_check cfgBase false envFreeSoon 7).sleptMs : Int) ≤
      cfgBase.thread_wait_gc_max_milliseconds + 100 ∧
    ((∀ i, envFreeSoon.cancelled i = false) →
      (∃ j : Nat, 1 ≤ j ∧
        100 * ((j : Int) - 1) < cfgBase.thread_wait_gc_max_milliseconds ∧
        envFreeSoon.exceed j = false) →
      (sys_memory_check cfgBase false envFreeSoon 7).decision = .Proceed ∧
      (sys_memory_check cfgBase false envFreeSoon 7).growth = 7) :=
  C6_wait_loop_bounded_and_eventually_succeeds cfgBase false envFreeSoon 7 rfl
    (by norm_num [cfgBase]) rfl rfl rfl rfl rfl (by norm_num [cfgBase])

/-- C7 (amended): cancellation is discovered cooperatively, but only by admission
checks whose hard-limit test reports exceeded: such a check on an already-cancelled
query resolves `Cancelled` (asynchronous mode) without sleeping or allocating; a
cancellation arriving during the wait loop is discovered at the next iteration and
also resolves `Cancelled`; a check whose hard-limit test passes does not observe the
cancellation and returns `Proceed`, allocating normally. -/
theorem C7_cooperative_cancellation_discovery (cfg : Config) (env : Env) (size : Nat)
    (hskip : env.skip_memory_check = 0)
    (hinj : ¬(0 < cfg.mem_alloc_fault_probability ∧ env.faultTrial = true)) :
    (env.cancelled 0 = true → env.exceed 0 = true →
      (sys_memory_check cfg false env size).decision = .Cancelled ∧
      (sys_memory_check cfg false env size).sleptMs = 0 ∧
      allocProceeds (sys_memory_check cfg false env size).decision = false) ∧
    (env.cancelled 0 = true → env.exceed 0 = false →
      (sys_memory_check cfg false env size).decision = .Proceed) ∧
    (env.cancelled 0 = false → env.cancelled 1 = true → env.exceed 0 = true →
      env.exceed 1 = true → env.is_attach_query = true → env.wait_gc = true →
      cfg.disable_memory_gc = false → 0 < cfg.thread_wait_gc_max_milliseconds →
      (sys_memory_check cfg false env size).decision = .Cancelled ∧
      (sys_memory_check cfg false env size).sleptMs = 100) := by
  refine ⟨fun hcan hex => ?_, fun hcan hex => ?_, ?_⟩
  · simp [sys_memory_check, SysEffects.decision, allocProceeds, noEffects,
      hskip, hinj, hex, hcan]
  · simp [sys_memory_check, SysEffects.decision, noEffects, hskip, hinj, hex, hcan]
  · intro hcan0 hcan1 hex0 hex1 hattach hwait hgc hmax
    obtain ⟨r, hr⟩ : ∃ r, numIters cfg.thread_wait_gc_max_milliseconds = r + 1 := by
      have h0 : 0 < numIters cfg.thread_wait_gc_max_milliseconds := by
        rw [← numIters_spec]
        omega
      exact ⟨numIters cfg.thread_wait_gc_max_milliseconds - 1, by omega⟩
    have hloop : waitLoop cfg.thread_wait_gc_max_milliseconds env = .cancelledMid 0 := by
      unfold waitLoop
      rw [hr]
      unfold waitLoopAux
      simp [hex1, hcan1]
    simp [sys_memory_check, SysEffects.decision, noEffects,
      hskip, hinj, hex0, hcan0, hattach, hwait, hgc, hloop]

/-- Witness for C7: the query becomes cancelled after the first wait-loop sleep;
the check discovers it at that iteration and resolves `Cancelled` after 100 ms. -/
theorem C7_witness :
    (envCancelMid.cancelled 0 = true → envCancelMid.exceed 0 = true →
      (sys_memory_check cfgBase false envCancelMid 10).decision = .Cancelled ∧
      (sys_memory_check cfgBase false envCancelMid 10).sleptMs = 0 ∧
      allocProceeds (sys_memory_check cfgBase false envCancelMid 10).decision = false) ∧
    (envCancelMid.cancelled 0 = true → envCancelMid.exceed 0 = false →
      (sys_memory_check cfgBase false envCancelMid 10).decision = .Proceed) ∧
    (envCancelMid.cancelled 0 = false → envCancelMid.cancelled 1 = true →
      envCancelMid.exceed 0 = true → envCancelMid.exceed 1 = true →
      envCancelMid.is_attach_query = true → envCancelMid.wait_gc = true →
      cfgBase.disable_memory_gc = false →
      0 < cfgBase.thread_wait_gc_max_milliseconds →
      (sys_memory_check cfgBase false envCancelMid 10).decision = .Cancelled ∧
      (sys_memory_check cfgBase false envCancelMid 10).sleptMs = 100) :=
  C7_cooperative_cancellation_discovery cfgBase envCancelMid 10 rfl (by norm_num [cfgBase])

/-- Counterexample for C7 as stated: a thread of an already-cancelled query whose
allocation does not exceed the hard limit does not discover the cancellation — the
check resolves `Proceed` and the allocation happens. -/
theorem C7_counterexample :
    (sys_memory_check cfgBase false envCancelledNoPressure 10).decision = .Proceed ∧
    allocProceeds (sys_memory_check cfgBase false envCancelledNoPressure 10).decision =
      true := by
  refine ⟨?_, ?_⟩ <;> decide

/-- C2: a fired fault-injection trial is indistinguishable downstream from a genuine
admission failure: in synchronous-unwind mode the check throws with the single error
kind `MEM_ALLOC_FAILED` (the kind every genuine throw carries, third conjunct); in
asynchronous mode it requests cancellation of the owning query and the call returns
without throwing, resolving `Cancelled`, so the caller does not allocate. -/
theorem C2_fault_injection_indistinguishable (cfg : Config) (c : Bool) (env : Env)
    (size : Nat)
    (hskip : env.skip_memory_check = 0)
    (hprob : 0 < cfg.mem_alloc_fault_probability)
    (htrial : env.faultTrial = true) :
    (c = true → (sys_memory_check cfg c env size).outcome =
        .thrown .MEM_ALLOC_FAILED .injection ∧
      (sys_memory_check cfg c env size).decision = .Fail) ∧
    (c = false → Msg.injection ∈ (sys_memory_check cfg c env size).cancels ∧
      (sys_memory_check cfg c env size).outcome = .ret ∧
      (sys_memory_check cfg c env size).decision = .Cancelled ∧
      allocProceeds (sys_memory_check cfg c env size).decision = false) ∧
    (∀ (cfg' : Config) (c' : Bool) (env' : Env) (size' : Nat) (code : ErrorCode)
      (m : Msg), (sys_memory_check cfg' c' env' size').outcome = .thrown code m →
      code = .MEM_ALLOC_FAILED) := by
  refine ⟨fun hc => ?_, fun hc => ?_, fun cfg' c' env' size' code m h =>
    sys_thrown_code cfg' c' env' size' code m h⟩
  · subst hc
    simp [sys_memory_check, SysEffects.decision, noEffects, hskip, hprob, htrial]
  · subst hc
    have hret := sys_ret_of_not_catch cfg env size
    have hmem : Msg.injection ∈ (sys_memory_check cfg false env size).cancels := by
      unfold sys_memory_check
      repeat' split
      all_goals simp_all [noEffects, apply_ite SysEffects.cancels, apply_ite (Msg.injection ∈ ·)]
    have hne : (sys_memory_check cfg false env size).cancels ≠ [] := by
      intro hnil
      rw [hnil] at hmem
      exact absurd hmem (List.not_mem_nil _)
    have hdec := decision_cancelled_of_cancels_ne _ hret hne
    exact ⟨hmem, hret, hdec, by rw [hdec]; rfl⟩

/-- Witness for C2: fault probability 1, trial fired, asynchronous mode. -/
theorem C2_witness :
    (false = true → (sys_memory_check cfgFault false envFaulty 10).outcome =
        .thrown .MEM_ALLOC_FAILED .injection ∧
      (sys_memory_check cfgFault false envFaulty 10).decision = .Fail) ∧
    (false = false →
      Msg.injection ∈ (sys_memory_check cfgFault false envFaulty 10).cancels ∧
      (sys_memory_check cfgFault false envFaulty 10).outcome = .ret ∧
      (sys_memory_check cfgFault false envFaulty 10).decision = .Cancelled ∧
      allocProceeds (sys_memory_check cfgFault false envFaulty 10).decision = false) ∧
    (∀ (cfg' : Config) (c' : Bool) (env' : Env) (size' : Nat) (code : ErrorCode)
      (m : Msg), (sys_memory_check cfg' c' env' size').outcome = .thrown code m →
      code = .MEM_ALLOC_FAILED) :=
  C2_fault_injection_indistinguishable cfgFault false envFaulty 10 rfl
    (by norm_num [cfgFault, cfgBase]) rfl

/-- C8: a failed per-query soft-limit check escalates immediately (no sleeping) and
independently of the arbitrator's hard-limit state (last conjunct: the result does
not depend on the `exceed`/`cancelled` oracles): for an attached query in
asynchronous mode the query is cancelled and the call resolves `Cancelled`; in
synchronous-unwind mode the call raises `Fail`. -/
theorem C8_soft_limit_immediate_escalation (c : Bool) (env : Env) (size : Nat)
    (hskip : env.skip_memory_check = 0)
    (hst : env.check_limit_ok = false) :
    (memory_tracker_check c env size).sleptMs = 0 ∧
    (memory_tracker_check c env size).growth = 0 ∧
    (env.is_attach_query = true → c = false →
      (memory_tracker_check c env size).cancels = [trackerErrMsg size] ∧
      (memory_tracker_check c env size).outcome = .ret ∧
      (memory_tracker_check c env size).decision = .Cancelled) ∧
    (c = true → (memory_tracker_check c env size).outcome =
        .thrown .MEM_ALLOC_FAILED (trackerErrMsg size) ∧
      (memory_tracker_check c env size).decision = .Fail) ∧
    (∀ f g : Nat → Bool,
      memory_tracker_check c { env with exceed := f, cancelled := g } size =
        memory_tracker_check c env size) := by
  refine ⟨?_, ?_, fun hattach hc => ?_, fun hc => ?_, fun f g => rfl⟩
  · cases c <;> cases hattach : env.is_attach_query <;>
      simp [memory_tracker_check, noEffects, hskip, hst, hattach]
  · cases c <;> cases hattach : env.is_attach_query <;>
      simp [memory_tracker_check, noEffects, hskip, hst, hattach]
  · subst hc
    simp [memory_tracker_check, SysEffects.decision, noEffects, hskip, hst, hattach]
  · subst hc
    cases hattach : env.is_attach_query <;>
      simp [memory_tracker_check, SysEffects.decision, noEffects, hskip, hst, hattach]

/-- Witness for C8: attached thread, soft-limit check failed, asynchronous mode. -/
theorem C8_witness :
    (memory_tracker_check false envSoftFail 30).sleptMs = 0 ∧
    (memory_tracker_check false envSoftFail 30).growth = 0 ∧
    (envSoftFail.is_attach_query = true → false = false →
      (memory_tracker_check false envSoftFail 30).cancels = [trackerErrMsg 30] ∧
      (memory_tracker_check false envSoftFail 30).outcome = .ret ∧
      (memory_tracker_check false envSoftFail 30).decision = .Cancelled) ∧
    (false = true → (memory_tracker_check false envSoftFail 30).outcome =
        .thrown .MEM_ALLOC_FAILED (trackerErrMsg 30) ∧
      (memory_tracker_check false envSoftFail 30).decision = .Fail) ∧
    (∀ f g : Nat → Bool,
      memory_tracker_check false { envSoftFail with exceed := f, cancelled := g } 30 =
        memory_tracker_check false envSoftFail 30) :=
  C8_soft_limit_immediate_escalation false envSoftFail 30 rfl rfl

/-- C10: a soft-limit violation by a query-attached context disables further
hard-limit waiting before cancelling or raising (the flag is recorded in both
propagation modes, including when the check throws), and any context whose
wait-eligibility bit is off never sleeps in the sys-memory check. -/
theorem C10_soft_limit_disables_wait (c : Bool) (env : Env) (size : Nat)
    (hskip : env.skip_memory_check = 0)
    (hst : env.check_limit_ok = false)
    (hattach : env.is_attach_query = true) :
    (memory_tracker_check c env size).disabledWaitGc = true ∧
    (∀ (cfg : Config) (env' : Env) (size' : Nat), env'.wait_gc = false →
      (sys_memory_check cfg c env' size').sleptMs = 0) := by
  refine ⟨?_, fun cfg env' size' hw => sys_no_sleep_of_not_wait_gc cfg c env' size' hw⟩
  cases c <;> simp [memory_tracker_check, noEffects, hskip, hst, hattach]

/-- Witness for C10: attached thread, soft-limit check failed, asynchronous mode. -/
theorem C10_witness :
    (memory_tracker_check false envSoftFail 30).disabledWaitGc = true ∧
    (∀ (cfg : Config) (env' : Env) (size' : Nat), env'.wait_gc = false →
      (sys_memory_check cfg false env' size').sleptMs = 0) :=
  C10_soft_limit_disables_wait false envSoftFail 30 rfl rfl rfl

end DorisAlloc
